import Mathlib

/-!
# Verification of `src/mdns/dnssd.py`

Shallow embedding of the DNS-SD service-instance-name encoders and the
`ServiceInstance` entity of `src/mdns/dnssd.py` (Python 3).

Modelling conventions:
* Python `bytes` values are `List Nat` (each element a byte value);
  Python `str` values are `List Nat` (each element a Unicode code point).
* Python exceptions are modelled with `Except PyErr`; `PyErr` covers the
  module's own error classes plus the built-in exceptions the module's
  statements can raise (`UnicodeEncodeError` from `str.encode('ascii')`,
  `UnicodeError` from `str.encode('idna')`, `TypeError` from operations
  on mismatched built-in types).
* Standard-library collaborators that are not part of the repository
  (`unicodedata.normalize('NFC', ...)`, `str.encode('utf-8')`,
  `str.encode('idna')`) are either taken as function parameters or, for
  UTF-8, given the standard definition, so theorems quantify over them
  where the repository's code does not constrain them.
-/

namespace Dnssd

/-- Exception kinds observable from `dnssd.py` under Python 3. -/
inductive PyErr where
  | invalidInstance
  | invalidService
  | invalidSubtype
  | unicodeEncodeError
  | unicodeError
  | typeError
  deriving DecidableEq, Repr

instance {ε α : Type} [DecidableEq ε] [DecidableEq α] : DecidableEq (Except ε α)
  | .error a, .error b =>
    if h : a = b then .isTrue (by rw [h]) else .isFalse (fun hc => h (Except.error.inj hc))
  | .error _, .ok _ => .isFalse (fun hc => Except.noConfusion hc)
  | .ok _, .error _ => .isFalse (fun hc => Except.noConfusion hc)
  | .ok a, .ok b =>
    if h : a = b then .isTrue (by rw [h]) else .isFalse (fun hc => h (Except.ok.inj hc))

/-! ## Byte classes used by the two compiled regular expressions -/

/-- Bytes excluded by the negated character class of `INSTANCE_REGEX_PATTERN`
(line 10).  The class is built from `range(0x00, 0x1F)` — which yields
`0x00 .. 0x1E`, the Python `range` end being exclusive — plus `0x7F`. -/
def isBadByte (b : Nat) : Bool := b ≤ 0x1E || b = 0x7F

/-- ASCII decimal digit (`[0-9]` of `SERVICE_NAME_REGEX_PATTERN`). -/
def isDigitB (c : Nat) : Bool := 0x30 ≤ c && c ≤ 0x39

/-- ASCII letter (`[A-Za-z]` of `SERVICE_NAME_REGEX_PATTERN`). -/
def isAlphaB (c : Nat) : Bool := (0x41 ≤ c && c ≤ 0x5A) || (0x61 ≤ c && c ≤ 0x7A)

/-- ASCII letter or digit (`[A-Za-z0-9]` of `SERVICE_NAME_REGEX_PATTERN`). -/
def isAlnumB (c : Nat) : Bool := isAlphaB c || isDigitB c

/-! ## `INSTANCE_REGEX_PATTERN` (line 10)

The pattern is `^.*[^<badbytes>].*$` over bytes, used via `re.match`.
Without `re.DOTALL`, `.` matches every byte except `0x0A`; without
`re.MULTILINE`, `$` matches at the end of the input or directly before a
newline that is the input's last byte.  The negated class `[^...]` cannot
match any byte of the class (which contains `0x0A`).  Hence the pattern
matches `s` exactly when: after dropping one trailing `0x0A` if present
(consumed by `$`), the remainder contains no `0x0A` and contains at least
one byte outside the class. -/
def instanceRegexMatches (s : List Nat) : Bool :=
  let s' := if s.getLast? = some 0x0A then s.dropLast else s
  s'.all (fun b => b != 0x0A) && s'.any (fun b => !(isBadByte b))

/-! ## `SERVICE_NAME_REGEX_PATTERN` (line 11)

The pattern is `^([0-9]+(\-){0,1})*[A-Za-z]((\-){0,1}[A-Za-z0-9])*$`.
`svcHead`/`svcDigits`/`svcTail` decide membership in the language of the
pattern's body by a deterministic scan.  Determinism is justified because
the alternatives never overlap: inside `([0-9]+-?)*` a digit run can only
extend (letters cannot be digits), a hyphen after a digit run can only
belong to the current group (the group that follows may not begin with a
hyphen and the mandatory `[A-Za-z]` is not a hyphen), and in
`(-?[A-Za-z0-9])*` a hyphen must be followed by an alphanumeric byte. -/

/-- Decides `((\-){0,1}[A-Za-z0-9])*` against the whole list (the part of
the service-name pattern after the mandatory letter). -/
def svcTail : List Nat → Bool
  | [] => true
  | [c] => isAlnumB c
  | c :: d :: rest =>
    if c = 0x2D then isAlnumB d && svcTail rest
    else isAlnumB c && svcTail (d :: rest)

mutual

/-- Decides the full body `([0-9]+(\-){0,1})*[A-Za-z]((\-){0,1}[A-Za-z0-9])*`
against the whole list. -/
def svcHead : List Nat → Bool
  | [] => false
  | c :: rest => if isDigitB c then svcDigits rest else isAlphaB c && svcTail rest

/-- State after having consumed at least one digit of the current
`[0-9]+(\-){0,1}` group. -/
def svcDigits : List Nat → Bool
  | [] => false
  | c :: rest =>
    if isDigitB c then svcDigits rest
    else if c = 0x2D then svcHead rest
    else isAlphaB c && svcTail rest

end

/-- `re.match(SERVICE_NAME_REGEX_PATTERN, s)` as a Boolean: the body must
match the whole input, or — because `$` also matches directly before a
final newline — the input minus a trailing `0x0A`. -/
def svcNameMatches (s : List Nat) : Bool :=
  if s.getLast? = some 0x0A then svcHead s || svcHead s.dropLast else svcHead s

/-! ## Instance encoder: `instance_to_bytes` (lines 34-66)

The preprocessing `unicodedata.normalize('NFC', instance).encode('utf-8')`
(line 54) is a standard-library collaborator; the embedding takes its
output — the NFC-normalized UTF-8 byte sequence — as the input. -/

/-- Applies a byte-to-bytes substitution to every byte, concatenating the
results; `bytes.replace` with a one-byte pattern is exactly this. -/
def replaceEach (f : Nat → List Nat) : List Nat → List Nat
  | [] => []
  | b :: rest => f b ++ replaceEach f rest

/-- `instance.replace(b'\\', b'\\\\')` (line 60): every backslash byte
becomes two backslash bytes. -/
def escBackslashes (l : List Nat) : List Nat :=
  replaceEach (fun b => if b = 0x5C then [0x5C, 0x5C] else [b]) l

/-- `instance.replace(b'.', b'\\.')` (line 61): every dot byte becomes
backslash-dot. -/
def escDots (l : List Nat) : List Nat :=
  replaceEach (fun b => if b = 0x2E then [0x5C, 0x2E] else [b]) l

/-- `instance_to_bytes` (lines 34-66), on the NFC-normalized UTF-8 byte
sequence of the input text. -/
def instance_to_bytes (inst : List Nat) (escape : Bool := true) :
    Except PyErr (List Nat) :=
  if !(instanceRegexMatches inst) then .error .invalidInstance
  else
    let inst := if escape then escDots (escBackslashes inst) else inst
    if inst.length > 63 then .error .invalidInstance
    else .ok inst

/-! ## Service encoder: `service_to_bytes` (lines 69-107) -/

/-- `bytes.rpartition(sep)` restricted to what line 88 uses: `some (before,
after)` splitting at the *last* occurrence of `sep`, or `none` when `sep`
does not occur (Python then returns `(b'', b'', s)`). -/
def rpart (sep : Nat) : List Nat → Option (List Nat × List Nat)
  | [] => none
  | c :: rest =>
    match rpart sep rest with
    | some (before, after) => some (c :: before, after)
    | none => if c = sep then some ([], rest) else none

/-- `service_to_bytes` (lines 69-107), on the code points of the input
text.  `service.encode('ascii')` (line 87) raises `UnicodeEncodeError` on
any code point above `0x7F` and otherwise yields the identical byte
values. -/
def service_to_bytes (service : List Nat) : Except PyErr (List Nat) :=
  if service.any (fun c => 0x80 ≤ c) then .error .unicodeEncodeError
  else
    let (name, proto) :=
      match rpart 0x2E service with
      | none => ([], service)
      | some p => p
    if name = [] then .error .invalidService
    else if ¬(proto = [0x5F, 0x74, 0x63, 0x70] ∨ proto = [0x5F, 0x75, 0x64, 0x70]) then
      .error .invalidService
    else if name.head? ≠ some 0x5F then .error .invalidService
    else
      let name := name.tail
      if ¬(0 < name.length ∧ name.length < 16) then .error .invalidService
      else if !(svcNameMatches name) then .error .invalidService
      else .ok service

/-! ## Subtype encoder: `subtype_to_bytes` (lines 110-125) -/

/-- Standard UTF-8 encoding of one Unicode scalar value
(`str.encode('utf-8')` per character; surrogate code points, which Python
would reject, do not occur in any input considered here). -/
def utf8EncodeChar (c : Nat) : List Nat :=
  if c < 0x80 then [c]
  else if c < 0x800 then [0xC0 + c / 0x40, 0x80 + c % 0x40]
  else if c < 0x10000 then
    [0xE0 + c / 0x1000, 0x80 + (c / 0x40) % 0x40, 0x80 + c % 0x40]
  else
    [0xF0 + c / 0x40000, 0x80 + (c / 0x1000) % 0x40, 0x80 + (c / 0x40) % 0x40,
     0x80 + c % 0x40]

/-- `str.encode('utf-8')` on a list of code points. -/
def utf8Encode (s : List Nat) : List Nat := replaceEach utf8EncodeChar s

/-- `subtype_to_bytes` (lines 110-125), on the code points of the input
text.  Note the source compares `len(subtype)` — the *code-point* count of
the text — against 63 (line 122) and only then encodes to UTF-8
(line 125). -/
def subtype_to_bytes (subtype : List Nat) : Except PyErr (List Nat) :=
  if subtype.length > 63 then .error .invalidSubtype
  else .ok (utf8Encode subtype)

/-! ## Domain encoder: `domain_to_bytes` (lines 128-153)

`unicodedata.normalize('NFC', ...)`, `str.encode('utf-8')` and
`str.encode('idna')` are standard-library collaborators and are taken as
parameters (`nfc`, `utf8Enc`, `idnaEnc`); `idnaEnc` may fail, as
`encode('idna')` raises `UnicodeError` for labels with no valid IDNA
transcoding, and a failure inside the list comprehension of line 145
aborts the whole call. -/

/-- `str.rstrip('.')` (line 142): removes every trailing dot. -/
def rstripDots (l : List Nat) : List Nat :=
  (l.reverse.dropWhile (fun c => c = 0x2E)).reverse

/-- `str.split('.')` (line 143): splits on every dot, keeping empty pieces;
the empty string yields one empty piece. -/
def splitDot : List Nat → List (List Nat)
  | [] => [[]]
  | c :: rest =>
    if c = 0x2E then [] :: splitDot rest
    else
      match splitDot rest with
      | [] => [[c]]
      | piece :: pieces => (c :: piece) :: pieces

/-- `b'.'.join(parts)`: concatenation with a single dot byte between
consecutive parts. -/
def joinDots : List (List Nat) → List Nat
  | [] => []
  | [l] => l
  | l :: rest => l ++ 0x2E :: joinDots rest

/-- The list comprehension `[l.encode('idna') for l in labels]` (line 145):
evaluates `f` left to right, propagating the first failure. -/
def mapExceptList (f : List Nat → Except PyErr (List Nat)) :
    List (List Nat) → Except PyErr (List (List Nat))
  | [] => .ok []
  | l :: rest =>
    match f l with
    | .error e => .error e
    | .ok b =>
      match mapExceptList f rest with
      | .error e => .error e
      | .ok bs => .ok (b :: bs)

/-- `itertools.product(*zip(utf8_labels, idna_labels))` (line 148): every
way of choosing, per pair, the first or the second component; the choice
for the first pair varies slowest, matching `itertools.product` order. -/
def prodChoices : List (List Nat × List Nat) → List (List (List Nat))
  | [] => [[]]
  | (a, b) :: rest =>
    (prodChoices rest).map (fun choice => a :: choice) ++
      (prodChoices rest).map (fun choice => b :: choice)

/-- The accumulation loop of lines 146-151: append each joined option to
`opts` unless it is already present. -/
def optionsFold (opts : List (List Nat)) : List (List Nat) → List (List Nat)
  | [] => opts
  | o :: rest =>
    if o ∈ opts then optionsFold opts rest else optionsFold (opts ++ [o]) rest

/-- `domain_to_bytes` (lines 128-153), on the code points of the input
text, parameterized by the standard-library encoders. -/
def domain_to_bytes (nfc utf8Enc : List Nat → List Nat)
    (idnaEnc : List Nat → Except PyErr (List Nat)) (domain : List Nat) :
    Except PyErr (List (List Nat)) :=
  let labels := splitDot (rstripDots (nfc domain))
  let utf8_labels := labels.map utf8Enc
  match mapExceptList idnaEnc labels with
  | .error e => .error e
  | .ok idna_labels =>
    .ok (optionsFold [] ((prodChoices (utf8_labels.zip idna_labels)).map joinDots))

/-! ## The `ServiceInstance` entity (lines 156-238) -/

/-- The four attributes set by `ServiceInstance.__init__` (lines 176-179). -/
structure ServiceInstance where
  _instance : List Nat
  _service : List Nat
  _domain : List Nat
  _subtype : Option (List Nat)
  deriving DecidableEq, Repr

/-- The `service_instance_name` property (lines 204-206):
`b'.'.join([instance, service, domain]) + b'.'`. -/
def ServiceInstance.service_instance_name (si : ServiceInstance) : List Nat :=
  joinDots [si._instance, si._service, si._domain] ++ [0x2E]

/-- Python 3 `bytes > int`: ordering is not defined between `bytes` and
`int`, so the comparison raises `TypeError` (line 181 compares the
composed name itself, not its length, against 256). -/
def pyBytesGtInt (_b : List Nat) (_n : Nat) : Except PyErr Bool :=
  .error .typeError

/-- `ServiceInstance.__init__` (lines 157-182): stores the four fields,
then evaluates `self.service_instance_name > 256`; a `True` result would
only log a warning (no correctness role), never block construction. -/
def ServiceInstance.construct (inst service domain : List Nat)
    (subtype : Option (List Nat) := none) : Except PyErr ServiceInstance :=
  let si : ServiceInstance := ⟨inst, service, domain, subtype⟩
  match pyBytesGtInt si.service_instance_name 256 with
  | .error e => .error e
  | .ok _ => .ok si

/-- Python 3 `bytes.translate(table, delete)` as called on lines 227-233:
the table argument is `string.ascii_uppercase`, a `str` of length 26,
where a bytes-like object of length 256 is required, so the call raises
`TypeError`. -/
def bytesTranslateStrTables (_b : List Nat) : Except PyErr (List Nat) :=
  .error .typeError

/-- `ServiceInstance.is_instance_of_service` (lines 208-238).  Note line
233 computes `self_subtype` from the caller's already-translated `subtype`,
not from `self.subtype`. -/
def ServiceInstance.is_instance_of_service (si : ServiceInstance)
    (service : List Nat) (subtype : Option (List Nat) := none) :
    Except PyErr Bool :=
  if subtype.isSome && si._subtype.isNone then .ok false
  else
    match bytesTranslateStrTables service with
    | .error e => .error e
    | .ok serviceT =>
      match bytesTranslateStrTables si._service with
      | .error e => .error e
      | .ok selfServiceT =>
        if serviceT = selfServiceT then
          match subtype with
          | some st =>
            match bytesTranslateStrTables st with
            | .error e => .error e
            | .ok stT =>
              match bytesTranslateStrTables stT with
              | .error e => .error e
              | .ok selfStT => .ok (stT == selfStT)
          | none => .ok true
        else .ok false

/-! ## Specification-side definitions

These follow the specification's words (not the source) and exist to be
compared against the source embedding above. -/

/-- Unescaping as the specification defines it for the round-trip property:
scanning left to right, `\\` becomes `\` and `\.` becomes `.`. -/
def unescape : List Nat → List Nat
  | [] => []
  | [c] => [c]
  | c :: d :: rest =>
    if c = 0x5C ∧ (d = 0x5C ∨ d = 0x2E) then d :: unescape rest
    else c :: unescape (d :: rest)

/-- Duplicate removal preserving first-seen order, stated from the
specification's words: emit each element the first time it appears,
dropping later occurrences. -/
def firstSeenDedup (seen : List (List Nat)) : List (List Nat) → List (List Nat)
  | [] => []
  | x :: xs =>
    if x ∈ seen then firstSeenDedup seen xs
    else x :: firstSeenDedup (x :: seen) xs

/-- The domain encoder's output as the specification describes it: split
the trailing-dot-stripped, NFC-normalized domain into labels, form every
combination of per-label UTF-8/IDNA choices, join each with dots, and
remove duplicates preserving first-seen order (an IDNA failure on any
label fails the whole encoding). -/
def domainCombos (nfc utf8Enc : List Nat → List Nat)
    (idnaEnc : List Nat → Except PyErr (List Nat)) (domain : List Nat) :
    Except PyErr (List (List Nat)) :=
  let labels := splitDot (rstripDots (nfc domain))
  match mapExceptList idnaEnc labels with
  | .error e => .error e
  | .ok idna_labels =>
    .ok (firstSeenDedup [] ((prodChoices ((labels.map utf8Enc).zip idna_labels)).map joinDots))

/-! ## Concrete byte sequences used in the statements -/

/-- `b"Foo"`. -/
def fooB : List Nat := [0x46, 0x6F, 0x6F]

/-- `b"_http._tcp"`. -/
def httpTcpB : List Nat := [0x5F, 0x68, 0x74, 0x74, 0x70, 0x2E, 0x5F, 0x74, 0x63, 0x70]

/-- `b"_HTTP._TCP"`. -/
def upperHttpTcpB : List Nat := [0x5F, 0x48, 0x54, 0x54, 0x50, 0x2E, 0x5F, 0x54, 0x43, 0x50]

/-- `b"local"`. -/
def localB : List Nat := [0x6C, 0x6F, 0x63, 0x61, 0x6C]

/-- `b"Foo._http._tcp.local."`. -/
def fooHttpLocalB : List Nat :=
  [0x46, 0x6F, 0x6F, 0x2E, 0x5F, 0x68, 0x74, 0x74, 0x70, 0x2E, 0x5F, 0x74, 0x63, 0x70,
   0x2E, 0x6C, 0x6F, 0x63, 0x61, 0x6C, 0x2E]

/-- `"_a\n._tcp"` — the service value whose name label ends in a newline. -/
def newlineSvcB : List Nat := [0x5F, 0x61, 0x0A, 0x2E, 0x5F, 0x74, 0x63, 0x70]

/-- `"_http._foo"`. -/
def badProtoB : List Nat := [0x5F, 0x68, 0x74, 0x74, 0x70, 0x2E, 0x5F, 0x66, 0x6F, 0x6F]

/-- `"http._tcp"`. -/
def noUnderscoreB : List Nat := [0x68, 0x74, 0x74, 0x70, 0x2E, 0x5F, 0x74, 0x63, 0x70]

/-- `"_-http._tcp"`. -/
def leadingHyphenB : List Nat :=
  [0x5F, 0x2D, 0x68, 0x74, 0x74, 0x70, 0x2E, 0x5F, 0x74, 0x63, 0x70]

/-- `"_toolongservicename1234._tcp"` (name portion of 22 octets). -/
def tooLongSvcB : List Nat :=
  [0x5F, 0x74, 0x6F, 0x6F, 0x6C, 0x6F, 0x6E, 0x67, 0x73, 0x65, 0x72, 0x76, 0x69, 0x63,
   0x65, 0x6E, 0x61, 0x6D, 0x65, 0x31, 0x32, 0x33, 0x34, 0x2E, 0x5F, 0x74, 0x63, 0x70]

/-- `"example"` (code points = ASCII bytes). -/
def exampleLabelB : List Nat := [0x65, 0x78, 0x61, 0x6D, 0x70, 0x6C, 0x65]

/-- `"com"`. -/
def comLabelB : List Nat := [0x63, 0x6F, 0x6D]

/-- `"example.com"`. -/
def exComB : List Nat := exampleLabelB ++ 0x2E :: comLabelB

/-- `"café"` as code points (`é` = U+00E9, NFC-normal). -/
def cafeLabelCP : List Nat := [0x63, 0x61, 0x66, 0xE9]

/-- UTF-8 encoding of `"café"`. -/
def cafeUtf8B : List Nat := [0x63, 0x61, 0x66, 0xC3, 0xA9]

/-- `"café.example"` as code points. -/
def cafeExampleCP : List Nat := cafeLabelCP ++ 0x2E :: exampleLabelB

/-- `b"xn--caf-dma"`, the Punycode form of `"café"`. -/
def xnCafeB : List Nat :=
  [0x78, 0x6E, 0x2D, 0x2D, 0x63, 0x61, 0x66, 0x2D, 0x64, 0x6D, 0x61]

/-- A concrete stand-in for `str.encode('idna')` on the labels of the
domain examples: `"café"` maps to its Punycode form, ASCII labels map to
themselves (as Python's codec returns ASCII labels unchanged). -/
def idnaApprox (l : List Nat) : Except PyErr (List Nat) :=
  if l = cafeLabelCP then .ok xnCafeB else .ok (utf8Encode l)

/-- A concrete stand-in for `str.encode('idna')` that fails on over-long
labels, as Python's codec raises `UnicodeError` for a label longer than
63 characters. -/
def idnaLongFails (l : List Nat) : Except PyErr (List Nat) :=
  if 63 < l.length then .error .unicodeError else .ok l

/-! ## Helper lemmas -/

theorem replaceEach_append (f : Nat → List Nat) (l1 l2 : List Nat) :
    replaceEach f (l1 ++ l2) = replaceEach f l1 ++ replaceEach f l2 := by
  induction l1 with
  | nil => rfl
  | cons b rest ih => simp [replaceEach, ih]

theorem unescape_cons_of_ne (b : Nat) (l : List Nat) (h : ¬b = 0x5C) :
    unescape (b :: l) = b :: unescape l := by
  cases l with
  | nil => rfl
  | cons d rest => simp [unescape, h]

theorem escBackslashes_cons (b : Nat) (l : List Nat) :
    escBackslashes (b :: l) =
      (if b = 0x5C then [0x5C, 0x5C] else [b]) ++ escBackslashes l := rfl

theorem escDots_append (l1 l2 : List Nat) :
    escDots (l1 ++ l2) = escDots l1 ++ escDots l2 := replaceEach_append _ l1 l2

theorem unescape_bs_bs (l : List Nat) :
    unescape (0x5C :: 0x5C :: l) = 0x5C :: unescape l := by simp [unescape]

theorem unescape_bs_dot (l : List Nat) :
    unescape (0x5C :: 0x2E :: l) = 0x2E :: unescape l := by simp [unescape]

/-- Escaping backslashes first and dots second is injective: the
specification's unescaping step recovers the original bytes. -/
theorem unescape_escape (bs : List Nat) :
    unescape (escDots (escBackslashes bs)) = bs := by
  induction bs with
  | nil => rfl
  | cons b rest ih =>
    rw [escBackslashes_cons, escDots_append]
    by_cases hb : b = 0x5C
    · subst hb
      rw [if_pos rfl]
      show unescape (0x5C :: 0x5C :: escDots (escBackslashes rest)) = _
      rw [unescape_bs_bs, ih]
    · rw [if_neg hb]
      by_cases hd : b = 0x2E
      · subst hd
        show unescape (0x5C :: 0x2E :: escDots (escBackslashes rest)) = _
        rw [unescape_bs_dot, ih]
      · have hone : escDots [b] = [b] := by simp [escDots, replaceEach, hd]
        rw [hone, List.singleton_append, unescape_cons_of_ne b _ hb, ih]

/-- A nonempty byte sequence free of the control bytes `0x00-0x1F` and
`0x7F` is matched by `INSTANCE_REGEX_PATTERN`. -/
theorem instanceRegexMatches_of_clean (bs : List Nat) (hne : bs ≠ [])
    (hctl : ∀ b ∈ bs, ¬(b < 0x20 ∨ b = 0x7F)) :
    instanceRegexMatches bs = true := by
  have hlast : ¬bs.getLast? = some 0x0A := by
    intro h
    have hmem : (0x0A : Nat) ∈ bs := List.mem_of_getLast?_eq_some h
    exact hctl _ hmem (Or.inl (by norm_num))
  unfold instanceRegexMatches
  rw [if_neg hlast]
  refine (Bool.and_eq_true _ _).mpr ⟨?_, ?_⟩
  · rw [List.all_eq_true]
    intro b hb
    have := hctl b hb
    simp only [bne_iff_ne, ne_eq]
    intro hEq
    exact this (Or.inl (by omega))
  · obtain ⟨b, rest, rfl⟩ := List.exists_cons_of_ne_nil hne
    have hb := hctl b (List.mem_cons_self b rest)
    rw [List.any_eq_true]
    refine ⟨b, List.mem_cons_self b rest, ?_⟩
    simp only [isBadByte, Bool.not_eq_true', Bool.or_eq_false_iff,
      decide_eq_false_iff_not]
    constructor
    · intro hle; exact hb (Or.inl (by omega))
    · intro hEq; exact hb (Or.inr hEq)

/-- The accumulation loop of `domain_to_bytes` computes exactly a
first-seen deduplication. -/
theorem optionsFold_eq_firstSeenDedup :
    ∀ (l acc seen : List (List Nat)), (∀ x, x ∈ acc ↔ x ∈ seen) →
      optionsFold acc l = acc ++ firstSeenDedup seen l := by
  intro l
  induction l with
  | nil => intro acc seen _; simp [optionsFold, firstSeenDedup]
  | cons o rest ih =>
    intro acc seen hmem
    by_cases h : o ∈ acc
    · have h' : o ∈ seen := (hmem o).1 h
      rw [optionsFold, if_pos h, firstSeenDedup, if_pos h']
      exact ih acc seen hmem
    · have h' : ¬o ∈ seen := fun hs => h ((hmem o).2 hs)
      rw [optionsFold, if_neg h, firstSeenDedup, if_neg h']
      rw [ih (acc ++ [o]) (o :: seen) (fun x => by simp [List.mem_append, or_comm, hmem x])]
      simp

/-- A failing element makes the whole left-to-right traversal fail. -/
theorem mapExceptList_isError (f : List Nat → Except PyErr (List Nat)) :
    ∀ ls : List (List Nat), (∃ l ∈ ls, ∀ bs, f l ≠ .ok bs) →
      ∃ e, mapExceptList f ls = .error e := by
  intro ls
  induction ls with
  | nil => rintro ⟨l, hl, _⟩; cases hl
  | cons x rest ih =>
    rintro ⟨l, hl, hfail⟩
    cases hfx : f x with
    | error e => exact ⟨e, by simp [mapExceptList, hfx]⟩
    | ok b =>
      rcases List.mem_cons.mp hl with rfl | hl'
      · exact absurd hfx (hfail b)
      · obtain ⟨e, he⟩ := ih ⟨l, hl', hfail⟩
        exact ⟨e, by simp [mapExceptList, hfx, he]⟩

/-! ## Claim theorems -/

/-- C1: the claim says the `ServiceInstance` constructor has no failure
path and at most logs an advisory warning for composed names over 256
octets.  In the code, line 181 compares the composed name — a `bytes`
value — itself against the integer 256 (instead of its length), and under
Python 3 `bytes > int` raises `TypeError`, so every construction fails,
the spec's own example `ServiceInstance(b"Foo", b"_http._tcp", b"local")`
included. -/
theorem construct_always_raises :
    (∀ (inst svc dom : List Nat) (st : Option (List Nat)),
      ServiceInstance.construct inst svc dom st = .error .typeError) ∧
    ServiceInstance.construct fooB httpTcpB localB none = .error .typeError :=
  ⟨fun _ _ _ _ => rfl, rfl⟩

/-- C2: the claim says any text whose NFC/UTF-8 bytes contain a byte in
`0x00-0x1F` or `0x7F` is rejected with `InvalidInstance`.  The compiled
pattern `^.*[^<ctrl>].*$` instead only rejects inputs with *no*
acceptable byte, so `"a\x00b"` — which contains `0x00` — is accepted
under either escape flag, and `"\x1f"` is accepted because
`range(0x00, 0x1F)` omits `0x1F` from the class. -/
theorem instance_control_bytes_eval :
    instance_to_bytes [0x61, 0x00, 0x62] true = .ok [0x61, 0x00, 0x62] ∧
    instance_to_bytes [0x61, 0x00, 0x62] false = .ok [0x61, 0x00, 0x62] ∧
    instance_to_bytes [0x1F] true = .ok [0x1F] := by
  refine ⟨rfl, rfl, rfl⟩

/-- C3: the claim says `is_instance_of_service` compares services
ASCII-case-insensitively and returns a Boolean.  The early subtype-presence
check does return `False`, but every path that reaches the comparison
calls `bytes.translate(string.ascii_uppercase, string.ascii_lowercase)`,
whose `str` table raises `TypeError` under Python 3, so the spec's example
`ServiceInstance(..., b"_HTTP._TCP", ...).is_instance_of_service(b"_http._tcp")`
raises instead of returning `True`. -/
theorem is_instance_of_service_eval :
    ServiceInstance.is_instance_of_service
        ⟨fooB, upperHttpTcpB, localB, none⟩ httpTcpB none = .error .typeError ∧
    ServiceInstance.is_instance_of_service
        ⟨fooB, upperHttpTcpB, localB, none⟩ httpTcpB (some [0x5F, 0x70]) = .ok false := by
  refine ⟨rfl, rfl⟩

/-- C4: the claim says `encode_subtype` fails exactly when the UTF-8
encoding exceeds 63 octets.  Line 122 compares `len(subtype)` — the
code-point count of the text — before encoding, so `"é" * 32` (32 code
points, 64 UTF-8 octets) is accepted and returns 64 octets; the
ASCII-only examples (`"x"*63` accepted, `"x"*64` rejected) do hold. -/
theorem subtype_codepoint_length_eval :
    subtype_to_bytes (List.replicate 32 0xE9) =
      .ok (utf8Encode (List.replicate 32 0xE9)) ∧
    (utf8Encode (List.replicate 32 0xE9)).length = 64 ∧
    subtype_to_bytes (List.replicate 63 0x78) = .ok (List.replicate 63 0x78) ∧
    subtype_to_bytes (List.replicate 64 0x78) = .error .invalidSubtype := by
  refine ⟨rfl, by decide, by decide, by decide⟩

/-- C5 counterexample: on the non-ASCII input `"é"`, `service_to_bytes`
raises the `str.encode('ascii')` failure (`UnicodeEncodeError`), which is
not the `InvalidService` error the claim requires. -/
theorem service_nonascii_counterexample :
    service_to_bytes [0xE9] = .error .unicodeEncodeError ∧
    PyErr.unicodeEncodeError ≠ PyErr.invalidService := by
  refine ⟨rfl, by decide⟩

/-- C5 (amended): any input containing a non-ASCII character makes
`service_to_bytes` fail — with the underlying encoding error
(`UnicodeEncodeError` from `service.encode('ascii')` on line 87), not
with `InvalidService`. -/
theorem service_nonascii_unicode_error (s : List Nat)
    (h : ∃ c ∈ s, 0x80 ≤ c) :
    service_to_bytes s = .error .unicodeEncodeError := by
  have hany : s.any (fun c => 0x80 ≤ c) = true := by
    rw [List.any_eq_true]
    obtain ⟨c, hc, hge⟩ := h
    exact ⟨c, hc, by simpa using hge⟩
  unfold service_to_bytes
  rw [if_pos hany]

theorem service_nonascii_unicode_error_witness :
    service_to_bytes [0x5F, 0xE9, 0x2E, 0x5F, 0x74, 0x63, 0x70] =
      .error .unicodeEncodeError :=
  service_nonascii_unicode_error _ ⟨0xE9, by decide, by decide⟩

/-- C6: the claim says `encode_service` accepts *exactly* the values whose
name label matches the RFC 6335 grammar.  The regular expression is
anchored with `$`, which in Python also matches just before a final
newline, so `"_a\n._tcp"` is accepted and returned verbatim even though
`"a\n"` does not match the grammar (second conjunct); the claim's five
cited examples do behave as stated (remaining conjuncts). -/
theorem service_trailing_newline_eval :
    service_to_bytes newlineSvcB = .ok newlineSvcB ∧
    svcHead [0x61, 0x0A] = false ∧
    service_to_bytes httpTcpB = .ok httpTcpB ∧
    service_to_bytes tooLongSvcB = .error .invalidService ∧
    service_to_bytes badProtoB = .error .invalidService ∧
    service_to_bytes noUnderscoreB = .error .invalidService ∧
    service_to_bytes leadingHyphenB = .error .invalidService := by
  refine ⟨rfl, rfl, rfl, by decide, rfl, rfl, rfl⟩

/-- C7 counterexample: the empty text contains no ASCII control character
and its escaped form (0 octets) is within the 63-octet bound, yet
`instance_to_bytes` rejects it, because `^.*[^<ctrl>].*$` requires at
least one byte. -/
theorem instance_empty_counterexample :
    instance_to_bytes [] true = .error .invalidInstance ∧
    (escDots (escBackslashes [])).length ≤ 63 := by
  refine ⟨rfl, by decide⟩

/-- C7 (amended): for every *nonempty* instance text containing no ASCII
control character whose escaped form is at most 63 octets,
`instance_to_bytes` with escaping succeeds, returns the escaped bytes
(backslashes doubled first, then dots escaped), and the specification's
unescaping step recovers the NFC-normalized UTF-8 original. -/
theorem instance_roundtrip (bs : List Nat) (hne : bs ≠ [])
    (hctl : ∀ b ∈ bs, ¬(b < 0x20 ∨ b = 0x7F))
    (hlen : (escDots (escBackslashes bs)).length ≤ 63) :
    instance_to_bytes bs true = .ok (escDots (escBackslashes bs)) ∧
    unescape (escDots (escBackslashes bs)) = bs := by
  refine ⟨?_, unescape_escape bs⟩
  unfold instance_to_bytes
  rw [instanceRegexMatches_of_clean bs hne hctl]
  simp [Nat.not_lt.mpr hlen]

theorem instance_roundtrip_witness :
    instance_to_bytes fooB true = .ok fooB ∧ unescape fooB = fooB := by
  have h := instance_roundtrip fooB (by decide) (by decide) (by decide)
  have he : escDots (escBackslashes fooB) = fooB := by decide
  rwa [he] at h

/-- C8: `domain_to_bytes` returns the first-seen deduplication of the
dot-joined cross product of per-label UTF-8/IDNA choices (first
conjunct), the cross product has `2^L` members for `L` labels (second
conjunct), and — for any encoders agreeing with the standard ones on the
labels involved — `"example.com"` yields exactly the single candidate
`b"example.com"` while `"café.example"` yields exactly two candidates,
UTF-8 form first (last two conjuncts; both inputs are NFC-fixed, so the
normalization parameter is the identity on them). -/
theorem domain_to_bytes_combinations :
    (∀ (nfc utf8Enc : List Nat → List Nat)
        (idnaEnc : List Nat → Except PyErr (List Nat)) (d : List Nat),
      domain_to_bytes nfc utf8Enc idnaEnc d = domainCombos nfc utf8Enc idnaEnc d) ∧
    (∀ ps : List (List Nat × List Nat), (prodChoices ps).length = 2 ^ ps.length) ∧
    (∀ (u : List Nat → List Nat) (i : List Nat → Except PyErr (List Nat)),
      u exampleLabelB = exampleLabelB → i exampleLabelB = .ok exampleLabelB →
      u comLabelB = comLabelB → i comLabelB = .ok comLabelB →
      domain_to_bytes id u i exComB = .ok [exComB]) ∧
    (∀ (u : List Nat → List Nat) (i : List Nat → Except PyErr (List Nat))
        (xb : List Nat),
      u cafeLabelCP = cafeUtf8B → i cafeLabelCP = .ok xb → xb ≠ cafeUtf8B →
      u exampleLabelB = exampleLabelB → i exampleLabelB = .ok exampleLabelB →
      domain_to_bytes id u i cafeExampleCP =
        .ok [cafeUtf8B ++ 0x2E :: exampleLabelB, xb ++ 0x2E :: exampleLabelB]) := by
  refine ⟨?_, ?_, ?_, ?_⟩
  · intro nfc utf8Enc idnaEnc d
    cases he : mapExceptList idnaEnc (splitDot (rstripDots (nfc d))) with
    | error e => simp [domain_to_bytes, domainCombos, he]
    | ok idna_labels =>
      have hfold := optionsFold_eq_firstSeenDedup
        ((prodChoices (((splitDot (rstripDots (nfc d))).map utf8Enc).zip
          idna_labels)).map joinDots) [] [] (fun x => Iff.rfl)
      simp [domain_to_bytes, domainCombos, he, hfold]
  · intro ps
    induction ps with
    | nil => rfl
    | cons p rest ih =>
      obtain ⟨a, b⟩ := p
      simp [prodChoices, ih, Nat.pow_succ, Nat.mul_two]
  · intro u i h1 h2 h3 h4
    have hl : splitDot (rstripDots (id exComB)) = [exampleLabelB, comLabelB] := by decide
    unfold domain_to_bytes
    rw [hl]
    simp only [List.map_cons, List.map_nil, h1, h3]
    rw [show mapExceptList i [exampleLabelB, comLabelB] =
        .ok [exampleLabelB, comLabelB] by simp [mapExceptList, h2, h4]]
    decide
  · intro u i xb h1 h2 hne h3 h4
    have hl : splitDot (rstripDots (id cafeExampleCP)) = [cafeLabelCP, exampleLabelB] := by
      decide
    unfold domain_to_bytes
    rw [hl]
    simp only [List.map_cons, List.map_nil, h1, h3]
    rw [show mapExceptList i [cafeLabelCP, exampleLabelB] = .ok [xb, exampleLabelB] by
      simp [mapExceptList, h2, h4]]
    have hjne : ¬xb ++ 0x2E :: exampleLabelB = cafeUtf8B ++ 0x2E :: exampleLabelB :=
      fun hEq => hne (List.append_cancel_right hEq)
    simp only [List.zip, List.zipWith, prodChoices, List.map_cons, List.map_nil,
      List.map_append, List.nil_append, joinDots]
    simp [optionsFold, hjne]

theorem domain_to_bytes_combinations_witness :
    domain_to_bytes id utf8Encode idnaApprox exComB = .ok [exComB] ∧
    domain_to_bytes id utf8Encode idnaApprox cafeExampleCP =
      .ok [cafeUtf8B ++ 0x2E :: exampleLabelB, xnCafeB ++ 0x2E :: exampleLabelB] := by
  constructor
  · exact domain_to_bytes_combinations.2.2.1 utf8Encode idnaApprox
      (by decide) (by decide) (by decide) (by decide)
  · exact domain_to_bytes_combinations.2.2.2 utf8Encode idnaApprox xnCafeB
      (by decide) (by decide) (by decide) (by decide) (by decide)

/-- C9: the composed `service_instance_name` is always
`instance ++ "." ++ service ++ "." ++ domain ++ "."` (first conjunct), and
`ServiceInstance(b"Foo", b"_http._tcp", b"local")` composes to
`b"Foo._http._tcp.local."` (second conjunct). -/
theorem service_instance_name_formula :
    (∀ si : ServiceInstance,
      si.service_instance_name =
        si._instance ++ [0x2E] ++ si._service ++ [0x2E] ++ si._domain ++ [0x2E]) ∧
    ServiceInstance.service_instance_name ⟨fooB, httpTcpB, localB, none⟩ =
      fooHttpLocalB := by
  constructor
  · intro si
    simp [ServiceInstance.service_instance_name, joinDots, List.append_assoc]
  · rfl

/-- C10: when `str.encode('idna')` fails for any label (Python's codec
raises `UnicodeError` for, e.g., a label longer than 63 characters), the
failure inside the list comprehension of line 145 aborts the whole
`domain_to_bytes` call — no candidate list omitting that label's IDNA
variant is returned. -/
theorem domain_idna_failure_propagates (nfc utf8Enc : List Nat → List Nat)
    (idnaEnc : List Nat → Except PyErr (List Nat)) (d : List Nat)
    (h : ∃ l ∈ splitDot (rstripDots (nfc d)), ∀ bs, idnaEnc l ≠ .ok bs) :
    ∃ e, domain_to_bytes nfc utf8Enc idnaEnc d = .error e := by
  obtain ⟨e, he⟩ := mapExceptList_isError idnaEnc _ h
  exact ⟨e, by simp [domain_to_bytes, he]⟩

theorem domain_idna_failure_propagates_witness :
    ∃ e, domain_to_bytes id id idnaLongFails (List.replicate 64 0x78) = .error e :=
  domain_idna_failure_propagates id id idnaLongFails (List.replicate 64 0x78)
    ⟨List.replicate 64 0x78, by decide, fun bs h => by simp [idnaLongFails] at h⟩

end Dnssd
